import Mathlib

/-!
Verification of the dual-detection control-loop core
(plant / controller / fault detector / attack detector / classifier / orchestrator).

All scalars are modelled as rationals; the per-tick random draws (process noise,
measurement noise, and the covert-attack perturbation) are passed explicitly as
inputs, so every definition is an executable function of its state and inputs.

NumPy matrix products whose operand shapes do not match raise `ValueError` at
run time; those products are modelled by a shape-checked product on plain
list-of-list matrices (`pymatmul`) that returns `none` exactly when NumPy would
raise.  The surrounding `try ... except` blocks of the source become `match`es
on these `Option` values.
-/

/-! ## Vectors and matrices of the fixed dimensions (n = 2, m = 2, p = 1) -/

/-- Length-2 vector (NumPy shape `(2,)`). -/
abbrev Vec2 := ℚ × ℚ

/-- 2×2 matrix stored as two rows. -/
abbrev Mat2 := Vec2 × Vec2

/-- Dot product of two length-2 vectors. -/
def dot2 (a b : Vec2) : ℚ := a.1 * b.1 + a.2 * b.2

/-- Matrix–vector product for well-shaped `(2,2) @ (2,)`. -/
def mulVec2 (M : Mat2) (v : Vec2) : Vec2 :=
  (M.1.1 * v.1 + M.1.2 * v.2, M.2.1 * v.1 + M.2.2 * v.2)

/-- Scalar multiple of a length-2 vector. -/
def vscale (c : ℚ) (v : Vec2) : Vec2 := (c * v.1, c * v.2)

/-- The all-ones vector `np.ones(2)`. -/
def ones2 : Vec2 := (1, 1)

/-- Quadratic form `vᵀ M v`. -/
def quadForm (v : Vec2) (M : Mat2) : ℚ := dot2 v (mulVec2 M v)

/-- Inverse of a 2×2 matrix; `np.linalg.inv` raises `LinAlgError` on a exactly
singular matrix, modelled by `none`. -/
def inv2 (M : Mat2) : Option Mat2 :=
  let d := M.1.1 * M.2.2 - M.1.2 * M.2.1
  if d = 0 then none
  else some ((M.2.2 / d, -M.1.2 / d), (-M.2.1 / d, M.1.1 / d))

/-! ## Shape-checked NumPy-style matrices (dynamic shapes)

Used only where the source performs a matrix product or reshape whose shapes
may be (and in fact are) invalid, so that the `ValueError` behaviour is
captured faithfully. -/

/-- Number of columns of a list-of-rows matrix. -/
def matCols (A : List (List ℚ)) : ℕ := (A.headD []).length

/-- Dot product of two rows (NumPy sums over the shared core dimension). -/
def dotL (a b : List ℚ) : ℚ := (List.zipWith (· * ·) a b).sum

/-- Transpose of a rectangular list-of-rows matrix. -/
def transposeL : List (List ℚ) → List (List ℚ)
  | [] => []
  | [r] => r.map fun a => [a]
  | r :: rs => List.zipWith (fun a col => a :: col) r (transposeL rs)

/-- NumPy `@` on 2-D arrays: defined only when the inner dimensions agree
(`A.shape[1] == B.shape[0]`), otherwise NumPy raises `ValueError`
(modelled by `none`). -/
def pymatmul (A B : List (List ℚ)) : Option (List (List ℚ)) :=
  if matCols A = B.length then
    some (A.map fun r => (transposeL B).map (dotL r))
  else none

/-- Split a flat list into `r` rows of `c` entries each. -/
def chunkRows : ℕ → ℕ → List ℚ → List (List ℚ)
  | 0, _, _ => []
  | r + 1, c, l => l.take c :: chunkRows r c (l.drop c)

/-- NumPy `reshape(r, c)`: defined only when the element count matches
`r * c`, otherwise NumPy raises `ValueError` (modelled by `none`). -/
def pyreshape (A : List (List ℚ)) (r c : ℕ) : Option (List (List ℚ)) :=
  let flat := A.flatten
  if flat.length = r * c then some (chunkRows r c flat) else none

/-- Elementwise difference of two list-of-rows matrices. -/
def matSubL (A B : List (List ℚ)) : List (List ℚ) :=
  List.zipWith (fun ra rb => List.zipWith (· - ·) ra rb) A B

/-- Read a length-2 vector back out of a flat list (`flatten()`). -/
def vec2OfList (l : List ℚ) : Vec2 := (l.getD 0 0, l.getD 1 0)

/-! ## Fixed system matrices (plant.py, shared read-only with the controller) -/

/-- Plant state matrix `A` (UAV longitudinal model). -/
def Aplant : Mat2 := ((0.8825, 0.0987), (-0.8458, 0.9122))

/-- Plant input matrix `B`. -/
def Bplant : Mat2 := ((-0.0194, -0.0036), (-1.9290, -0.3808))

/-- Plant output matrix `C = [[1, 0]]`, kept as its single row. -/
def cRow : Vec2 := (1, 0)

/-- Plant feedthrough matrix `D = zeros((1, 2))`, kept as its single row. -/
def dRow : Vec2 := (0, 0)

/-- `C` as a list-of-rows matrix, shape `(1, 2)`. -/
def cList : List (List ℚ) := [[1, 0]]

/-! ## PlantModel (plant.py) -/

/-- The three fault kinds accepted by `Plant.set_fault`. -/
inductive FaultKind where
  | plant
  | sensor
  | actuator
deriving DecidableEq, Repr

/-- Mutable plant state: true state vector plus injection state
(`fault_type` is a single optional kind, so at most one fault kind is
designated at any time). -/
structure PlantState where
  x : Vec2
  fault_active : Bool
  fault_type : Option FaultKind
  fault_magnitude : ℚ
deriving DecidableEq, Repr

/-- `Plant.step(u)`: one step of `x ← Ax + Bu + w (+ fault terms)`,
returning the measured output `y = Cx + Du + η (+ sensor bias)`.
The noise draws `w` and `eta` are explicit inputs. -/
def plantStep (p : PlantState) (u : Vec2) (w : Vec2) (eta : ℚ) : ℚ × PlantState :=
  let fault_process : Vec2 :=
    if p.fault_active then
      match p.fault_type with
      | some .plant => vscale p.fault_magnitude ones2
      | _ => (0, 0)
    else (0, 0)
  let fault_sensor : ℚ :=
    if p.fault_active then
      match p.fault_type with
      | some .sensor => p.fault_magnitude
      | _ => 0
    else 0
  let u1 : Vec2 :=
    if p.fault_active then
      match p.fault_type with
      | some .actuator => u + vscale p.fault_magnitude ones2
      | _ => u
    else u
  let x1 := mulVec2 Aplant p.x + mulVec2 Bplant u1 + w + fault_process
  let y := dot2 cRow x1 + dot2 dRow u1 + eta + fault_sensor
  (y, { p with x := x1 })

/-- `Plant.set_fault(kind, magnitude)`. -/
def setFault (p : PlantState) (k : FaultKind) (m : ℚ) : PlantState :=
  { p with fault_active := true, fault_type := some k, fault_magnitude := m }

/-- `Plant.clear_fault()`. -/
def clearFault (p : PlantState) : PlantState :=
  { p with fault_active := false, fault_type := none, fault_magnitude := 0 }

/-- `Plant.reset()`: zero the state, then `clear_fault()`. -/
def plantReset (p : PlantState) : PlantState :=
  clearFault { p with x := (0, 0) }

/-! ## Controller (controller.py)

The system matrices are the shared constants above; the observer gain `L`
(shape `(2,1)`, kept as a length-2 vector) and regulator gain `F` come from
the one-time Riccati design (with fallbacks) and are carried as state so the
theorems quantify over every possible designed gain. -/

/-- Controller state: estimate, gains, reference. -/
structure CtrlState where
  x_hat : Vec2
  L : Vec2
  F : Mat2
  reference : ℚ
deriving DecidableEq, Repr

/-- `Controller.update_observer(y, u) → (ŷ, innovation)`:
`ŷ = Cx̂ + Du`, `r = y − ŷ`, `x̂ ← Ax̂ + Bu + L·r` (the `(2,1)` gain is
multiplied elementwise by the scalar innovation and flattened). -/
def updateObserver (c : CtrlState) (y : ℚ) (u : Vec2) : (ℚ × ℚ) × CtrlState :=
  let y_hat := dot2 cRow c.x_hat + dot2 dRow u
  let innovation := y - y_hat
  let x1 := mulVec2 Aplant c.x_hat + mulVec2 Bplant u + vscale innovation c.L
  ((y_hat, innovation), { c with x_hat := x1 })

/-- `Controller.compute_control(y) → u = Fx̂ + [reference, 0]`
(the received `y` is not read by the control law). -/
def computeControl (c : CtrlState) (_y : ℚ) : Vec2 :=
  mulVec2 c.F c.x_hat + (c.reference, 0)

/-- `Controller.reset()`: zero the estimate and the reference. -/
def ctrlReset (c : CtrlState) : CtrlState :=
  { c with x_hat := (0, 0), reference := 0 }

/-! ## FaultDetector (detectors.py, Detector 1)

`compute_residual_covariance` fixes `Σ_r = 0.01`; the threshold is the
chi-square quantile supplied by SciPy.  Both are carried as state fields,
fixed by `fdInit` at the constructed values. -/

/-- Fault-detector state: residual variance, threshold, and the three
parallel history lists. -/
structure FDState where
  Sigma_r : ℚ
  threshold : ℚ
  residuals : List ℚ
  test_statistics : List ℚ
  detections : List Bool
deriving DecidableEq, Repr

/-- Modelled from the spec: the detection threshold is the `(1 − α)`-quantile
of a chi-square distribution (`α = 0.01`, `df` the detector's degrees of
freedom).  The quantile function itself is SciPy's `chi2.ppf`, outside this
repository; the values used for `df = 1` and `df = 2` are the ones the
repository itself records for these thresholds in the simulator's
safe-default record (`6.63` and `9.21`). -/
def chi2ppf99 (df : ℕ) : ℚ := if df ≤ 1 then 663 / 100 else 921 / 100

/-- The fault detector as constructed: `Σ_r = 0.01`, threshold the df-1
chi-square quantile, empty histories. -/
def fdInit : FDState :=
  { Sigma_r := 1 / 100
    threshold := chi2ppf99 1
    residuals := []
    test_statistics := []
    detections := [] }

/-- `FaultDetector.check(residual) → (detected, J)`:
`J = r² / Σ_r`, `detected = J > threshold`; append `(r, J, detected)` to the
three history lists and evict the oldest entry (`pop(0)`) once the length
passes 1000. -/
def faultCheck (s : FDState) (r : ℚ) : (Bool × ℚ) × FDState :=
  let J := r ^ 2 / s.Sigma_r
  let detected := decide (J > s.threshold)
  let rs := s.residuals ++ [r]
  let ts := s.test_statistics ++ [J]
  let ds := s.detections ++ [detected]
  if 1000 < rs.length then
    ((detected, J),
      { s with residuals := rs.tail, test_statistics := ts.tail, detections := ds.tail })
  else
    ((detected, J), { s with residuals := rs, test_statistics := ts, detections := ds })

/-- `FaultDetector.reset()`: clears the history lists only. -/
def fdReset (s : FDState) : FDState :=
  { s with residuals := [], test_statistics := [], detections := [] }

/-! ## AttackDetector (detectors.py, Detector 2)

State space of the detector object: its own estimate `x̂_u`, the estimator
matrices the constructor is meant to install, the residual covariance,
threshold and histories.  (`_build_estimator` in fact raises before most of
these are ever assigned — see `attackBuildEstimator` below — so the theorems
about `check`/`update_estimator` quantify over the whole state space.) -/

/-- Attack-detector state. -/
structure ADState where
  x_u_hat : Vec2
  L_u : Mat2
  A_est : Mat2
  B_est : Vec2
  C_est : Mat2
  Sigma_r_u : Mat2
  threshold : ℚ
  residuals : List Vec2
  test_statistics : List ℚ
  detections : List Bool
deriving DecidableEq, Repr

/-- The estimator matrices `_build_estimator` tries to install. -/
structure ADMatrices where
  L_u : List (List ℚ)
  A_est : List (List ℚ)
  B_est : List (List ℚ)
  C_est : List (List ℚ)
  Sigma_r_u : List (List ℚ)
deriving DecidableEq, Repr

/-- `AttackDetector._build_estimator` (called from `__init__`, outside any
`try`): `L_u = 0.5·I₂`, then `A_est = controller.A − L_u @ controller.C`.
The product has shapes `(2,2) @ (1,2)`, so NumPy raises `ValueError` and the
constructor never completes; `none` models the escaping exception.  (The
later `B_est = L_u.reshape(2, 1)` would raise as well: 4 elements cannot be
reshaped to `(2,1)`.) -/
def attackBuildEstimator (ctrl : CtrlState) : Option ADMatrices := do
  let L_u : List (List ℚ) := [[1/2, 0], [0, 1/2]]
  let LC ← pymatmul L_u cList
  let A_est := matSubL [[Aplant.1.1, Aplant.1.2], [Aplant.2.1, Aplant.2.2]] LC
  let B_est ← pyreshape L_u 2 1
  some { L_u := L_u
         A_est := A_est
         B_est := B_est
         C_est := [[ctrl.F.1.1, ctrl.F.1.2], [ctrl.F.2.1, ctrl.F.2.2]]
         Sigma_r_u := [[1/100, 0], [0, 1/100]] }

/-- `mat2ToList`: a 2×2 matrix as a list-of-rows NumPy array. -/
def mat2ToList (M : Mat2) : List (List ℚ) :=
  [[M.1.1, M.1.2], [M.2.1, M.2.2]]

/-- `AttackDetector.update_estimator(y, u, v) → r_u` (with the post-state).
Inside the `try`: `û = C_est @ x̂_u`, `r_u = u − û`; then the state update
`x̂_u ← A_est x̂_u + (B_est @ y).flatten() + (L_u @ [[y − C x̂_u]]).flatten()`.
The last product has shapes `(2,2) @ (1,1)`, so NumPy raises `ValueError`;
the method's own `except` catches it and returns `np.zeros(m)`, leaving
`x̂_u` unassigned.  The `ctrl` argument is the stored `self.controller`
reference, read only for its (constant) output matrix `C`. -/
def attackUpdateEstimator (ctrl : CtrlState) (s : ADState) (y : ℚ) (u : Vec2)
    (v : ℚ) : Vec2 × ADState :=
  let u_hat := mulVec2 s.C_est s.x_u_hat
  let r_u := u - u_hat
  match pymatmul (mat2ToList s.L_u) [[y - dot2 cRow s.x_u_hat]] with
  | none => ((0, 0), s)
  | some t =>
      (r_u,
       { s with x_u_hat :=
          mulVec2 s.A_est s.x_u_hat + vscale y s.B_est + vec2OfList t.flatten })

/-- `AttackDetector.check(u, y, v) → (detected, J_u)` (with the post-state).
`r_u` from `update_estimator`; `J_u = r_uᵀ Σ_{r_u}⁻¹ r_u`;
`detected = J_u > threshold`; the same bounded-history bookkeeping as the
fault detector (the eviction condition reads the residual list's length and
pops all three lists).  A failure inside the body (`np.linalg.inv` on a
singular covariance) is caught by the method's `except`, which returns
`(False, 0.0)` without touching the histories. -/
def attackCheck (ctrl : CtrlState) (s : ADState) (u : Vec2) (y : ℚ) (v : ℚ) :
    (Bool × ℚ) × ADState :=
  let ru_s1 := attackUpdateEstimator ctrl s y u v
  let r_u := ru_s1.1
  let s1 := ru_s1.2
  match inv2 s1.Sigma_r_u with
  | none => ((false, 0), s1)
  | some Sinv =>
      let J := quadForm r_u Sinv
      let detected := decide (J > s1.threshold)
      let rs := s1.residuals ++ [r_u]
      let ts := s1.test_statistics ++ [J]
      let ds := s1.detections ++ [detected]
      if 1000 < rs.length then
        ((detected, J),
          { s1 with residuals := rs.tail, test_statistics := ts.tail,
                    detections := ds.tail })
      else
        ((detected, J),
          { s1 with residuals := rs, test_statistics := ts, detections := ds })

/-- `AttackDetector.reset()`: zero `x̂_u`, clear the history lists. -/
def adReset (s : ADState) : ADState :=
  { s with x_u_hat := (0, 0), residuals := [], test_statistics := [],
           detections := [] }

/-! ## SecureNetwork (networks.py)

The Fernet key and cipher are modelled away: an encrypt/decrypt round trip of
a JSON-serialised value returns the value unchanged (and on failure the
orchestrator falls back to the unencrypted value, which is the same value),
so the round trip is the identity on the data and an increment of the
`packets_encrypted` counter. -/

/-- The three attack kinds accepted by `SecureNetwork.set_attack`. -/
inductive AttackKind where
  | zero_dynamics
  | covert
  | replay
deriving DecidableEq, Repr

/-- Network state: attack-injection state, replay history, counters. -/
structure NetState where
  attack_active : Bool
  attack_type : Option AttackKind
  attack_magnitude : ℚ
  attack_history : List Vec2
  packets_sent : ℕ
  packets_encrypted : ℕ
  packets_attacked : ℕ
deriving DecidableEq, Repr

/-- `SecureNetwork._apply_attack(u)`: corrupt the control signal according to
the active attack type, append the honest `u` to the replay history and trim
that history to 100 entries. -/
def applyAttack (n : NetState) (u : Vec2) : Vec2 × NetState :=
  let u_attacked : Vec2 :=
    match n.attack_type with
    | some .zero_dynamics => u + vscale n.attack_magnitude ones2
    | some .covert => u + vscale n.attack_magnitude ones2
    | some .replay =>
        if 10 < n.attack_history.length then
          n.attack_history.getD (n.attack_history.length - 10) (0, 0)
        else u
    | none => u
  let h1 := n.attack_history ++ [u]
  let h2 := if 100 < h1.length then h1.tail else h1
  (u_attacked, { n with attack_history := h2 })

/-- `SecureNetwork.send_control_signal(u)`: count the packet; under an active
attack, corrupt the signal and count the attacked packet. -/
def sendControlSignal (n : NetState) (u : Vec2) : Vec2 × NetState :=
  let n1 := { n with packets_sent := n.packets_sent + 1 }
  if n.attack_active then
    let ua_n2 := applyAttack n1 u
    (ua_n2.1, { ua_n2.2 with packets_attacked := ua_n2.2.packets_attacked + 1 })
  else (u, n1)

/-- `SecureNetwork.send_measurement(y)`: count the packet; only a covert
attack corrupts the measurement, by `y + magnitude · randn` where `randn` is
the random draw, passed explicitly. -/
def sendMeasurement (n : NetState) (y : ℚ) (randn : ℚ) : ℚ × NetState :=
  let n1 := { n with packets_sent := n.packets_sent + 1 }
  if n.attack_active ∧ n.attack_type = some .covert then
    (y + n.attack_magnitude * randn,
     { n1 with packets_attacked := n1.packets_attacked + 1 })
  else (y, n1)

/-- One successful `encrypt_data`/`decrypt_data` round trip: the data comes
back unchanged and the encryption counter advances. -/
def encryptTick (n : NetState) : NetState :=
  { n with packets_encrypted := n.packets_encrypted + 1 }

/-- `SecureNetwork.set_attack(kind, magnitude)`. -/
def setAttack (n : NetState) (k : AttackKind) (m : ℚ) : NetState :=
  { n with attack_active := true, attack_type := some k, attack_magnitude := m,
           attack_history := [] }

/-- `SecureNetwork.clear_attack()`. -/
def clearAttack (n : NetState) : NetState :=
  { n with attack_active := false, attack_type := none, attack_magnitude := 0,
           attack_history := [] }

/-- `SecureNetwork.get_statistics()`: the five reported entries, as the
key/value pairs of the returned dict. -/
def getStatistics (n : NetState) : List (String × ℚ) :=
  [("packets_sent", (n.packets_sent : ℚ)),
   ("packets_encrypted", (n.packets_encrypted : ℚ)),
   ("packets_attacked", (n.packets_attacked : ℚ)),
   ("encryption_rate", (n.packets_encrypted : ℚ) / (max 1 n.packets_sent : ℕ)),
   ("attack_rate", (n.packets_attacked : ℚ) / (max 1 n.packets_sent : ℕ))]

/-! ## Anomaly classification and the result record (simulator.py) -/

/-- `SystemSimulator._classify_anomaly(fault_detected, attack_detected)`:
a pure function of the two booleans (the spec's labels `Normal`,
`SystemFault`, `KernelAttack`, `FaultAndAttack` are the source's strings
`"Normal"`, `"System Fault"`, `"Kernel Attack"`, `"Fault and Attack"`). -/
def classifyAnomaly (fault_detected attack_detected : Bool) : String :=
  if fault_detected && attack_detected then "Fault and Attack"
  else if attack_detected && !fault_detected then "Kernel Attack"
  else if fault_detected && !attack_detected then "System Fault"
  else "Normal"

/-- The per-tick result record emitted by `SystemSimulator.step` (the
`network` entry mirrors the nested dict as key/value pairs). -/
structure SimRecord where
  time : ℚ
  state : Vec2
  output : ℚ
  control : Vec2
  reference : ℚ
  fd_residual : ℚ
  fd_statistic : ℚ
  fd_detected : Bool
  fd_threshold : ℚ
  ad_statistic : ℚ
  ad_detected : Bool
  ad_threshold : ℚ
  anomaly_type : String
  network : List (String × ℚ)
  active_fault : Bool
  active_attack : Bool
deriving DecidableEq, Repr

/-! ## SystemSimulator (simulator.py) -/

/-- The whole simulation state owned by the orchestrator. -/
structure SimState where
  plant : PlantState
  ctrl : CtrlState
  fd : FDState
  ad : ADState
  net : NetState
  time : ℚ
  step_count : ℕ
  last_u : Vec2
deriving DecidableEq, Repr

/-- The three random draws one tick consumes: process noise `w`, sensor
noise `eta`, and the standard-normal draw used by a covert measurement
attack. -/
structure TickNoise where
  w : Vec2
  eta : ℚ
  randn : ℚ
deriving DecidableEq, Repr

/-- `SystemSimulator.step`'s core computation (the body of its `try`),
in the source's strict order:
read `y = C·x`; channel + encryption round trip on `y`; compute `u`
(the shape guard always passes, so `last_u := u`); update the observer;
channel + encryption round trip on `u`; `plant.step` (the returned output
is discarded); both detector checks; classify; advance time by `0.1` and
the tick counter by one; build the result record.  Database writes have no
effect on this state and their failures are swallowed, so they do not
appear. -/
def tick (s : SimState) (nz : TickNoise) : SimRecord × SimState :=
  let y := dot2 cRow s.plant.x
  let ytr_net1 := sendMeasurement s.net y nz.randn
  let y_received := ytr_net1.1
  let net2 := encryptTick ytr_net1.2
  let u := computeControl s.ctrl y_received
  let last_u1 := u
  let obs := updateObserver s.ctrl y_received u
  let residual := obs.1.2
  let ctrl1 := obs.2
  let utr_net3 := sendControlSignal net2 u
  let u_received := utr_net3.1
  let net4 := encryptTick utr_net3.2
  let step1 := plantStep s.plant u_received nz.w nz.eta
  let plant1 := step1.2
  let fres := faultCheck s.fd residual
  let fault_detected := fres.1.1
  let fault_stat := fres.1.2
  let fd1 := fres.2
  let ares := attackCheck ctrl1 s.ad u_received y_received 0
  let attack_detected := ares.1.1
  let attack_stat := ares.1.2
  let ad1 := ares.2
  let anomaly := classifyAnomaly fault_detected attack_detected
  let time1 := s.time + 1 / 10
  let record : SimRecord :=
    { time := time1
      state := plant1.x
      output := y_received
      control := u_received
      reference := ctrl1.reference
      fd_residual := residual
      fd_statistic := fault_stat
      fd_detected := fault_detected
      fd_threshold := fd1.threshold
      ad_statistic := attack_stat
      ad_detected := attack_detected
      ad_threshold := ad1.threshold
      anomaly_type := anomaly
      network := getStatistics net4
      active_fault := plant1.fault_active
      active_attack := net4.attack_active }
  (record,
   { plant := plant1, ctrl := ctrl1, fd := fd1, ad := ad1, net := net4,
     time := time1, step_count := s.step_count + 1, last_u := last_u1 })

/-- The safe-default record `SystemSimulator.step` returns from its `except`
branch, with the current `self.time` (the hard-coded `6.63`/`9.21` threshold
entries and the three-key network dict are the source's literals). -/
def safeDefaultRecord (t : ℚ) : SimRecord :=
  { time := t
    state := (0, 0)
    output := 0
    control := (0, 0)
    reference := 0
    fd_residual := 0
    fd_statistic := 0
    fd_detected := false
    fd_threshold := 663 / 100
    ad_statistic := 0
    ad_detected := false
    ad_threshold := 921 / 100
    anomaly_type := "Normal"
    network := [("packets_sent", 0), ("packets_encrypted", 0), ("packets_attacked", 0)]
    active_fault := false
    active_attack := false }

/-- `SystemSimulator.step` as a whole: if the core computation completes it
returns its record, and if it raises anywhere (`core = none`) the `except`
branch returns the safe-default record instead of propagating. -/
def simStepTotal (core : Option SimRecord) (t : ℚ) : SimRecord :=
  match core with
  | some r => r
  | none => safeDefaultRecord t

/-- `SystemSimulator.reset()`: cascade `reset` to the plant, the controller
and both detectors, clear the channel attack, and zero the clock and tick
counter.  Nothing recomputes gains or thresholds. -/
def simReset (s : SimState) : SimState :=
  { plant := plantReset s.plant
    ctrl := ctrlReset s.ctrl
    fd := fdReset s.fd
    ad := adReset s.ad
    net := clearAttack s.net
    time := 0
    step_count := 0
    last_u := s.last_u }

/-- `SystemSimulator.inject_fault(fault_type, magnitude)` (the database
event write has no core-state effect). -/
def injectFault (s : SimState) (k : FaultKind) (m : ℚ) : SimState :=
  { s with plant := setFault s.plant k m }

/-- `SystemSimulator.inject_attack(attack_type, magnitude)`. -/
def injectAttack (s : SimState) (k : AttackKind) (m : ℚ) : SimState :=
  { s with net := setAttack s.net k m }

/-! ## Repeated detector checks (for the bounded-history claims) -/

/-- Fold `FaultDetector.check` over a list of residuals, keeping the state. -/
def runFD (s : FDState) (rs : List ℚ) : FDState :=
  rs.foldl (fun t r => (faultCheck t r).2) s

/-- Fold `AttackDetector.check` over a list of `(u, y, v)` inputs. -/
def runAD (c : CtrlState) (s : ADState) (ins : List (Vec2 × ℚ × ℚ)) : ADState :=
  ins.foldl (fun t i => (attackCheck c t i.1 i.2.1 i.2.2).2) s

/-- A fault-detector state with the given variance and threshold and empty
histories (the state right after construction or `reset()`). -/
def mkFD (sg th : ℚ) : FDState :=
  { Sigma_r := sg, threshold := th, residuals := [], test_statistics := [],
    detections := [] }

/-- An attack-detector state with its histories emptied (as after `reset()`). -/
def clearHistAD (s : ADState) : ADState :=
  { s with residuals := [], test_statistics := [], detections := [] }

/-! ## Helper lemmas -/

/-- `AttackDetector.update_estimator` always takes its `except` path: the
`(2,2) @ (1,1)` product in the state update raises for every input, so the
method returns the zero residual and leaves the detector state untouched. -/
lemma attackUpdateEstimator_eq (c : CtrlState) (s : ADState) (y : ℚ) (u : Vec2)
    (v : ℚ) : attackUpdateEstimator c s y u v = ((0, 0), s) := rfl

/-- The quadratic form at the zero vector vanishes. -/
lemma quadForm_zero (M : Mat2) : quadForm 0 M = 0 := by
  simp [quadForm, dot2, mulVec2]

/-- Whatever the state and inputs, `AttackDetector.check` reports the zero
statistic and, as long as the threshold is nonnegative, no detection. -/
lemma attackCheck_res (c : CtrlState) (s : ADState) (u : Vec2) (y v : ℚ)
    (h : 0 ≤ s.threshold) : (attackCheck c s u y v).1 = (false, 0) := by
  simp only [attackCheck, attackUpdateEstimator_eq]
  rcases hσ : inv2 s.Sigma_r_u with _ | Sinv
  · simp [hσ]
  · simp only [hσ]
    split <;> simp [quadForm_zero, not_lt.mpr h]

/-- Popping the head after appending at the tail, then appending the rest,
is the same as dropping one more element from the fully appended list. -/
lemma tail_append_drop {α : Type} (a : List α) (x : α) (l : List α) (k : ℕ)
    (ha : a ≠ []) :
    ((a ++ [x]).tail ++ l).drop k = (a ++ x :: l).drop (k + 1) := by
  cases a with
  | nil => exact absurd rfl ha
  | cons hd tl => simp [List.append_assoc]

/-- Closed form for a run of `FaultDetector.check` calls: variance and
threshold never change, and each history list is the concatenation of all
produced entries with the oldest entries dropped down to capacity 1000. -/
lemma runFD_closed (rs : List ℚ) : ∀ s : FDState,
    s.residuals.length ≤ 1000 →
    s.test_statistics.length = s.residuals.length →
    s.detections.length = s.residuals.length →
    (runFD s rs).Sigma_r = s.Sigma_r ∧
    (runFD s rs).threshold = s.threshold ∧
    (runFD s rs).residuals =
      (s.residuals ++ rs).drop (s.residuals.length + rs.length - 1000) ∧
    (runFD s rs).test_statistics =
      (s.test_statistics ++ rs.map fun q => q ^ 2 / s.Sigma_r).drop
        (s.residuals.length + rs.length - 1000) ∧
    (runFD s rs).detections =
      (s.detections ++ rs.map fun q => decide (q ^ 2 / s.Sigma_r > s.threshold)).drop
        (s.residuals.length + rs.length - 1000) := by
  induction rs with
  | nil =>
    intro s h1 h2 h3
    have hk : s.residuals.length - 1000 = 0 := by omega
    refine ⟨rfl, rfl, ?_, ?_, ?_⟩ <;> simp [runFD, hk]
  | cons r rest ih =>
    intro s h1 h2 h3
    by_cases hc : 1000 < s.residuals.length + 1
    · have hL : s.residuals.length = 1000 := by omega
      have hs1 : (faultCheck s r).2 =
          { s with residuals := (s.residuals ++ [r]).tail,
                   test_statistics := (s.test_statistics ++ [r ^ 2 / s.Sigma_r]).tail,
                   detections :=
                     (s.detections ++ [decide (r ^ 2 / s.Sigma_r > s.threshold)]).tail } := by
        simp [faultCheck, hc]
      have hrun : runFD s (r :: rest) = runFD (faultCheck s r).2 rest := rfl
      rw [hrun, hs1]
      have hne1 : s.residuals ≠ [] := by
        intro he; rw [he] at hL; simp at hL
      have hne2 : s.test_statistics ≠ [] := by
        intro he; rw [he] at h2; rw [hL] at h2; simp at h2
      have hne3 : s.detections ≠ [] := by
        intro he; rw [he] at h3; rw [hL] at h3; simp at h3
      have l1 : ((s.residuals ++ [r]).tail).length = 1000 := by
        simp [hL]
      have l2 : ((s.test_statistics ++ [r ^ 2 / s.Sigma_r]).tail).length = 1000 := by
        simp [h2, hL]
      have l3 : ((s.detections ++ [decide (r ^ 2 / s.Sigma_r > s.threshold)]).tail).length
          = 1000 := by
        simp [h3, hL]
      obtain ⟨e1, e2, e3, e4, e5⟩ :=
        ih { s with residuals := (s.residuals ++ [r]).tail,
                    test_statistics := (s.test_statistics ++ [r ^ 2 / s.Sigma_r]).tail,
                    detections :=
                      (s.detections ++ [decide (r ^ 2 / s.Sigma_r > s.threshold)]).tail }
          (by simpa using l1.le) (by simpa using l2.trans l1.symm)
          (by simpa using l3.trans l1.symm)
      refine ⟨e1, e2, ?_, ?_, ?_⟩
      · rw [e3]
        simp only [l1]
        have hk : 1000 + rest.length - 1000 = rest.length := by omega
        have hk2 : s.residuals.length + (r :: rest).length - 1000 = rest.length + 1 := by
          simp only [List.length_cons]; omega
        rw [hk, hk2]
        exact tail_append_drop s.residuals r rest rest.length hne1
      · rw [e4]
        simp only [l1]
        have hk : 1000 + rest.length - 1000 = rest.length := by omega
        have hk2 : s.residuals.length + (r :: rest).length - 1000 = rest.length + 1 := by
          simp only [List.length_cons]; omega
        rw [hk, hk2, List.map_cons]
        exact tail_append_drop s.test_statistics (r ^ 2 / s.Sigma_r) _ rest.length hne2
      · rw [e5]
        simp only [l1]
        have hk : 1000 + rest.length - 1000 = rest.length := by omega
        have hk2 : s.residuals.length + (r :: rest).length - 1000 = rest.length + 1 := by
          simp only [List.length_cons]; omega
        rw [hk, hk2, List.map_cons]
        exact tail_append_drop s.detections
          (decide (r ^ 2 / s.Sigma_r > s.threshold)) _ rest.length hne3
    · have hs1 : (faultCheck s r).2 =
          { s with residuals := s.residuals ++ [r],
                   test_statistics := s.test_statistics ++ [r ^ 2 / s.Sigma_r],
                   detections :=
                     s.detections ++ [decide (r ^ 2 / s.Sigma_r > s.threshold)] } := by
        simp [faultCheck, hc]
      have hrun : runFD s (r :: rest) = runFD (faultCheck s r).2 rest := rfl
      rw [hrun, hs1]
      have l1 : (s.residuals ++ [r]).length = s.residuals.length + 1 := by simp
      obtain ⟨e1, e2, e3, e4, e5⟩ :=
        ih { s with residuals := s.residuals ++ [r],
                    test_statistics := s.test_statistics ++ [r ^ 2 / s.Sigma_r],
                    detections :=
                      s.detections ++ [decide (r ^ 2 / s.Sigma_r > s.threshold)] }
          (by simp only [l1]; omega) (by simp [h2]) (by simp [h3])
      refine ⟨e1, e2, ?_, ?_, ?_⟩
      · rw [e3]
        simp only [l1]
        have hk : s.residuals.length + 1 + rest.length =
            s.residuals.length + (r :: rest).length := by
          simp only [List.length_cons]; omega
        rw [hk, List.append_assoc, List.singleton_append]
      · rw [e4]
        simp only [l1]
        have hk : s.residuals.length + 1 + rest.length =
            s.residuals.length + (r :: rest).length := by
          simp only [List.length_cons]; omega
        rw [hk, List.append_assoc, List.singleton_append, List.map_cons]
      · rw [e5]
        simp only [l1]
        have hk : s.residuals.length + 1 + rest.length =
            s.residuals.length + (r :: rest).length := by
          simp only [List.length_cons]; omega
        rw [hk, List.append_assoc, List.singleton_append, List.map_cons]

/-- One `AttackDetector.check` call with an invertible covariance pushes the
triple `((0,0), 0, decide (0 > threshold))` onto the histories with the same
capacity-1000 eviction as the fault detector. -/
lemma attackCheck_state (c : CtrlState) (s : ADState) (u : Vec2) (y v : ℚ)
    (Sinv : Mat2) (hσ : inv2 s.Sigma_r_u = some Sinv) :
    (attackCheck c s u y v).2 =
      if 1000 < s.residuals.length + 1 then
        { s with residuals := (s.residuals ++ [(0 : Vec2)]).tail,
                 test_statistics := (s.test_statistics ++ [(0 : ℚ)]).tail,
                 detections := (s.detections ++ [decide ((0 : ℚ) > s.threshold)]).tail }
      else
        { s with residuals := s.residuals ++ [(0 : Vec2)],
                 test_statistics := s.test_statistics ++ [(0 : ℚ)],
                 detections := s.detections ++ [decide ((0 : ℚ) > s.threshold)] } := by
  simp only [attackCheck, attackUpdateEstimator_eq, hσ]
  split <;> split <;> simp_all [quadForm_zero]

/-- Closed form for a run of `AttackDetector.check` calls with an invertible
covariance: estimate, covariance and threshold never change, and the history
lists hold the produced entries with the oldest dropped down to capacity. -/
lemma runAD_closed (ins : List (Vec2 × ℚ × ℚ)) : ∀ (c : CtrlState) (s : ADState)
    (Sinv : Mat2), inv2 s.Sigma_r_u = some Sinv →
    s.residuals.length ≤ 1000 →
    s.test_statistics.length = s.residuals.length →
    s.detections.length = s.residuals.length →
    (runAD c s ins).Sigma_r_u = s.Sigma_r_u ∧
    (runAD c s ins).threshold = s.threshold ∧
    (runAD c s ins).x_u_hat = s.x_u_hat ∧
    (runAD c s ins).residuals =
      (s.residuals ++ ins.map fun _ => (0 : Vec2)).drop
        (s.residuals.length + ins.length - 1000) ∧
    (runAD c s ins).test_statistics =
      (s.test_statistics ++ ins.map fun _ => (0 : ℚ)).drop
        (s.residuals.length + ins.length - 1000) ∧
    (runAD c s ins).detections =
      (s.detections ++ ins.map fun _ => decide ((0 : ℚ) > s.threshold)).drop
        (s.residuals.length + ins.length - 1000) := by
  induction ins with
  | nil =>
    intro c s Sinv hσ h1 h2 h3
    have hk : s.residuals.length - 1000 = 0 := by omega
    refine ⟨rfl, rfl, rfl, ?_, ?_, ?_⟩ <;> simp [runAD, hk]
  | cons i rest ih =>
    intro c s Sinv hσ h1 h2 h3
    have hrun : runAD c s (i :: rest) = runAD c (attackCheck c s i.1 i.2.1 i.2.2).2 rest :=
      rfl
    rw [hrun, attackCheck_state c s i.1 i.2.1 i.2.2 Sinv hσ]
    by_cases hc : 1000 < s.residuals.length + 1
    · have hL : s.residuals.length = 1000 := by omega
      rw [if_pos hc]
      have hne1 : s.residuals ≠ [] := by
        intro he; rw [he] at hL; simp at hL
      have hne2 : s.test_statistics ≠ [] := by
        intro he; rw [he] at h2; rw [hL] at h2; simp at h2
      have hne3 : s.detections ≠ [] := by
        intro he; rw [he] at h3; rw [hL] at h3; simp at h3
      have l1 : ((s.residuals ++ [(0 : Vec2)]).tail).length = 1000 := by simp [hL]
      have l2 : ((s.test_statistics ++ [(0 : ℚ)]).tail).length = 1000 := by
        simp [h2, hL]
      have l3 : ((s.detections ++ [decide ((0 : ℚ) > s.threshold)]).tail).length = 1000 := by
        simp [h3, hL]
      obtain ⟨e1, e2, e3, e4, e5, e6⟩ :=
        ih c { s with residuals := (s.residuals ++ [(0 : Vec2)]).tail,
                      test_statistics := (s.test_statistics ++ [(0 : ℚ)]).tail,
                      detections := (s.detections ++ [decide ((0 : ℚ) > s.threshold)]).tail }
          Sinv hσ (by simpa using l1.le) (by simpa using l2.trans l1.symm)
          (by simpa using l3.trans l1.symm)
      refine ⟨e1, e2, e3, ?_, ?_, ?_⟩
      · rw [e4]
        simp only [l1]
        have hk : 1000 + rest.length - 1000 = rest.length := by omega
        have hk2 : s.residuals.length + (i :: rest).length - 1000 = rest.length + 1 := by
          simp only [List.length_cons]; omega
        rw [hk, hk2, List.map_cons]
        exact tail_append_drop s.residuals (0 : Vec2) _ rest.length hne1
      · rw [e5]
        simp only [l1]
        have hk : 1000 + rest.length - 1000 = rest.length := by omega
        have hk2 : s.residuals.length + (i :: rest).length - 1000 = rest.length + 1 := by
          simp only [List.length_cons]; omega
        rw [hk, hk2, List.map_cons]
        exact tail_append_drop s.test_statistics (0 : ℚ) _ rest.length hne2
      · rw [e6]
        simp only [l1]
        have hk : 1000 + rest.length - 1000 = rest.length := by omega
        have hk2 : s.residuals.length + (i :: rest).length - 1000 = rest.length + 1 := by
          simp only [List.length_cons]; omega
        rw [hk, hk2, List.map_cons]
        exact tail_append_drop s.detections (decide ((0 : ℚ) > s.threshold)) _
          rest.length hne3
    · rw [if_neg hc]
      have l1 : (s.residuals ++ [(0 : Vec2)]).length = s.residuals.length + 1 := by simp
      obtain ⟨e1, e2, e3, e4, e5, e6⟩ :=
        ih c { s with residuals := s.residuals ++ [(0 : Vec2)],
                      test_statistics := s.test_statistics ++ [(0 : ℚ)],
                      detections := s.detections ++ [decide ((0 : ℚ) > s.threshold)] }
          Sinv hσ (by simp only [l1]; omega) (by simp [h2]) (by simp [h3])
      refine ⟨e1, e2, e3, ?_, ?_, ?_⟩
      · rw [e4]
        simp only [l1]
        have hk : s.residuals.length + 1 + rest.length =
            s.residuals.length + (i :: rest).length := by
          simp only [List.length_cons]; omega
        rw [hk, List.append_assoc, List.singleton_append, List.map_cons]
      · rw [e5]
        simp only [l1]
        have hk : s.residuals.length + 1 + rest.length =
            s.residuals.length + (i :: rest).length := by
          simp only [List.length_cons]; omega
        rw [hk, List.append_assoc, List.singleton_append, List.map_cons]
      · rw [e6]
        simp only [l1]
        have hk : s.residuals.length + 1 + rest.length =
            s.residuals.length + (i :: rest).length := by
          simp only [List.length_cons]; omega
        rw [hk, List.append_assoc, List.singleton_append, List.map_cons]

/-- `FaultDetector.check`'s returned pair, independent of the branch taken. -/
lemma faultCheck_fst (t : FDState) (r : ℚ) :
    (faultCheck t r).1 =
      (decide (r ^ 2 / t.Sigma_r > t.threshold), r ^ 2 / t.Sigma_r) := by
  simp only [faultCheck]
  split <;> rfl

/-! ## Claim theorems -/

/-- Claim C1.  The claim states that `update_estimator` returns the residual
`r_u = u − û` (with `û = C_est·x̂_u`) and advances the estimate by
`x̂_u ← A_est·x̂_u + B_est·y + L_u·r_u` using matrices built at construction.
The code does neither: `_build_estimator` raises a shape `ValueError`
(`(2,2) @ (1,2)`) before installing any matrix, so construction never
completes (`attackBuildEstimator` is `none` for every controller); and,
on any state of the detector's state space, the `(2,2) @ (1,1)` product in
the update raises, so `update_estimator` always returns the zero residual
and never advances `x̂_u`. -/
theorem attack_estimator_raises :
    (∀ c : CtrlState, attackBuildEstimator c = none) ∧
    (∀ (c : CtrlState) (s : ADState) (y : ℚ) (u : Vec2) (v : ℚ),
      attackUpdateEstimator c s y u v = ((0, 0), s)) :=
  ⟨fun _ => rfl, fun _ _ _ _ _ => rfl⟩

/-- Claim C2.  The claim states that a covert attack of sufficiently large
magnitude makes `attack_detected` become true within a bounded number of
ticks.  In fact, after injecting a covert attack of any magnitude, every
subsequent tick reports `attack_detected = false` with statistic `0`
(whenever the detector's threshold is nonnegative, as any chi-square
quantile is), because `update_estimator` always returns the zero residual:
the attack detector can never fire. -/
theorem covert_attack_never_detected (s : SimState) (m : ℚ) (nz : TickNoise)
    (h : 0 ≤ s.ad.threshold) :
    (tick (injectAttack s .covert m) nz).1.ad_detected = false ∧
    (tick (injectAttack s .covert m) nz).1.ad_statistic = 0 := by
  have hres := attackCheck_res
    (updateObserver (injectAttack s .covert m).ctrl
      (sendMeasurement (injectAttack s .covert m).net
        (dot2 cRow (injectAttack s .covert m).plant.x) nz.randn).1
      (computeControl (injectAttack s .covert m).ctrl
        (sendMeasurement (injectAttack s .covert m).net
          (dot2 cRow (injectAttack s .covert m).plant.x) nz.randn).1)).2
    (injectAttack s .covert m).ad
  simp only [tick]
  constructor
  · rw [hres _ _ _ h]
  · rw [hres _ _ _ h]

/-- Witness for C2 at a concrete state: a tick after injecting a covert
attack of magnitude 1000 still reports no attack. -/
theorem covert_attack_never_detected_witness :
    (tick (injectAttack
      { plant := { x := (0, 0), fault_active := false, fault_type := none,
                   fault_magnitude := 0 }
        ctrl := { x_hat := (0, 0), L := (0, 0), F := ((0, 0), (0, 0)), reference := 0 }
        fd := fdInit
        ad := { x_u_hat := (0, 0), L_u := ((1/2, 0), (0, 1/2)),
                A_est := ((0, 0), (0, 0)), B_est := (0, 0),
                C_est := ((0, 0), (0, 0)),
                Sigma_r_u := ((1/100, 0), (0, 1/100)), threshold := 921/100,
                residuals := [], test_statistics := [], detections := [] }
        net := { attack_active := false, attack_type := none, attack_magnitude := 0,
                 attack_history := [], packets_sent := 0, packets_encrypted := 0,
                 packets_attacked := 0 }
        time := 0, step_count := 0, last_u := (0, 0) }
      .covert 1000) { w := (0, 0), eta := 0, randn := 1 }).1.ad_detected = false :=
  (covert_attack_never_detected _ 1000 _ (by norm_num)).1

/-- Claim C3.  Two ticks from the same state with the same random draws, one
with an active sensor fault of arbitrary magnitude and one with no fault,
emit the same result record except for the `active_fault` flag and leave the
same post-state except for the plant's fault-injection fields: the sensor
bias only enters `Plant.step`'s returned output, which the orchestrator
discards (it reads `y = C·x` directly at the start of the tick). -/
theorem sensor_fault_invisible_downstream (s : SimState) (m : ℚ) (nz : TickNoise) :
    tick { s with plant := setFault s.plant .sensor m } nz =
      ({ (tick { s with plant := clearFault s.plant } nz).1 with active_fault := true },
       { (tick { s with plant := clearFault s.plant } nz).2 with
          plant := { (tick { s with plant := clearFault s.plant } nz).2.plant with
                      fault_active := true, fault_type := some .sensor,
                      fault_magnitude := m } }) ∧
    (tick { s with plant := clearFault s.plant } nz).1.active_fault = false :=
  ⟨rfl, rfl⟩

/-- Claim C4.  `FaultDetector.check` computes `J(r) = r²/Σ_r`, which is
strictly increasing in `|r|` for the constructed variance `Σ_r = 0.01`; the
returned flag is true exactly when `J(r)` exceeds the threshold; and the
constructed threshold (the 0.99 chi-square quantile at one degree of
freedom) is strictly positive. -/
theorem fault_check_statistic (s : FDState) (r r1 r2 : ℚ)
    (hσ : s.Sigma_r = 1 / 100) (habs : |r1| < |r2|) :
    (faultCheck s r).1.2 = r ^ 2 / s.Sigma_r ∧
    ((faultCheck s r).1.1 = true ↔ r ^ 2 / s.Sigma_r > s.threshold) ∧
    (faultCheck s r1).1.2 < (faultCheck s r2).1.2 ∧
    0 < fdInit.threshold := by
  refine ⟨?_, ?_, ?_, ?_⟩
  · simp only [faultCheck]
    split <;> rfl
  · simp only [faultCheck]
    split <;> simp
  · have hJ : ∀ q : ℚ, (faultCheck s q).1.2 = q ^ 2 / s.Sigma_r := by
      intro q
      simp only [faultCheck]
      split <;> rfl
    rw [hJ, hJ, hσ, div_lt_div_iff_of_pos_right (by norm_num : (0:ℚ) < 1 / 100)]
    calc r1 ^ 2 = |r1| ^ 2 := (sq_abs r1).symm
      _ < |r2| ^ 2 := pow_lt_pow_left₀ habs (abs_nonneg r1) (by norm_num)
      _ = r2 ^ 2 := sq_abs r2
  · norm_num [fdInit, chi2ppf99]

/-- Witness for C4 at the constructed detector and residuals 1 and 2. -/
theorem fault_check_statistic_witness :
    (faultCheck fdInit 1).1.2 = 1 ^ 2 / fdInit.Sigma_r ∧
    ((faultCheck fdInit 1).1.1 = true ↔ 1 ^ 2 / fdInit.Sigma_r > fdInit.threshold) ∧
    (faultCheck fdInit 1).1.2 < (faultCheck fdInit 2).1.2 ∧
    0 < fdInit.threshold :=
  fault_check_statistic fdInit 1 1 2 rfl (by norm_num)

/-- Claim C5.  `Plant.step` advances `x ← Ax + Bu + w`, plus `m·1` over the
state when a plant fault of magnitude `m` is active; an actuator fault adds
`m·1` to `u` before the state update uses it; a sensor fault adds its
magnitude as a bias to the returned output `y = Cx + Du + η` only; and the
single optional `fault_type` field designates at most one active kind at a
time, the one `set_fault` installed. -/
theorem plant_step_fault_semantics (p : PlantState) (u w : Vec2) (eta m : ℚ)
    (k : FaultKind) :
    (plantStep (setFault p .plant m) u w eta).2.x =
      mulVec2 Aplant p.x + mulVec2 Bplant u + w + vscale m ones2 ∧
    (plantStep (setFault p .actuator m) u w eta).2.x =
      mulVec2 Aplant p.x + mulVec2 Bplant (u + vscale m ones2) + w ∧
    (plantStep (setFault p .sensor m) u w eta).2.x =
      mulVec2 Aplant p.x + mulVec2 Bplant u + w ∧
    (plantStep (setFault p .sensor m) u w eta).1 =
      dot2 cRow (mulVec2 Aplant p.x + mulVec2 Bplant u + w) + dot2 dRow u + eta + m ∧
    (plantStep (clearFault p) u w eta).2.x =
      mulVec2 Aplant p.x + mulVec2 Bplant u + w ∧
    (plantStep (clearFault p) u w eta).1 =
      dot2 cRow (mulVec2 Aplant p.x + mulVec2 Bplant u + w) + dot2 dRow u + eta ∧
    (setFault p k m).fault_active = true ∧
    (setFault p k m).fault_type = some k := by
  refine ⟨?_, ?_, ?_, ?_, ?_, ?_, rfl, rfl⟩ <;>
    simp [plantStep, setFault, clearFault]

/-- Claim C6.  Starting from empty histories, more than 1000 checks leave
each of the three history lists of either detector at length exactly 1000,
with the oldest entries the evicted ones (the surviving fault-detector
residuals are the last 1000 inputs in order); after any number of checks
every history length is at most the capacity 1000; and neither `check`'s
returned `(detected, statistic)` pair reads the stored history. -/
theorem detector_history_fifo (sg th : ℚ) (rs : List ℚ) (c : CtrlState)
    (a : ADState) (ins : List (Vec2 × ℚ × ℚ)) (Sinv : Mat2)
    (hσ : inv2 a.Sigma_r_u = some Sinv)
    (hlen : 1000 < rs.length) (hlen2 : 1000 < ins.length) :
    (runFD (mkFD sg th) rs).residuals.length = 1000 ∧
    (runFD (mkFD sg th) rs).test_statistics.length = 1000 ∧
    (runFD (mkFD sg th) rs).detections.length = 1000 ∧
    (runFD (mkFD sg th) rs).residuals = rs.drop (rs.length - 1000) ∧
    (∀ qs : List ℚ,
      (runFD (mkFD sg th) qs).residuals.length ≤ 1000 ∧
      (runFD (mkFD sg th) qs).test_statistics.length ≤ 1000 ∧
      (runFD (mkFD sg th) qs).detections.length ≤ 1000) ∧
    (∀ (t : FDState) (r : ℚ) (l1 : List ℚ) (l2 : List ℚ) (l3 : List Bool),
      (faultCheck
        { t with residuals := l1, test_statistics := l2, detections := l3 } r).1 =
        (faultCheck t r).1) ∧
    (runAD c (clearHistAD a) ins).residuals.length = 1000 ∧
    (runAD c (clearHistAD a) ins).test_statistics.length = 1000 ∧
    (runAD c (clearHistAD a) ins).detections.length = 1000 ∧
    (runAD c (clearHistAD a) ins).residuals =
      (ins.map fun _ => (0 : Vec2)).drop (ins.length - 1000) ∧
    (∀ js : List (Vec2 × ℚ × ℚ),
      (runAD c (clearHistAD a) js).residuals.length ≤ 1000 ∧
      (runAD c (clearHistAD a) js).test_statistics.length ≤ 1000 ∧
      (runAD c (clearHistAD a) js).detections.length ≤ 1000) ∧
    (∀ (t : ADState) (u : Vec2) (y v : ℚ) (l1 : List Vec2) (l2 : List ℚ)
        (l3 : List Bool),
      (attackCheck c
        { t with residuals := l1, test_statistics := l2, detections := l3 } u y v).1 =
        (attackCheck c t u y v).1) := by
  have hfd := runFD_closed rs (mkFD sg th) (by simp [mkFD]) (by simp [mkFD])
    (by simp [mkFD])
  obtain ⟨f1, f2, f3, f4, f5⟩ := hfd
  have hσ2 : inv2 (clearHistAD a).Sigma_r_u = some Sinv := hσ
  have had := runAD_closed ins c (clearHistAD a) Sinv hσ2 (by simp [clearHistAD])
    (by simp [clearHistAD]) (by simp [clearHistAD])
  obtain ⟨g1, g2, g3, g4, g5, g6⟩ := had
  refine ⟨?_, ?_, ?_, ?_, ?_, ?_, ?_, ?_, ?_, ?_, ?_, ?_⟩
  · rw [f3]; simp [mkFD]; omega
  · rw [f4]; simp [mkFD]; omega
  · rw [f5]; simp [mkFD]; omega
  · rw [f3]; simp [mkFD]
  · intro qs
    have h := runFD_closed qs (mkFD sg th) (by simp [mkFD]) (by simp [mkFD])
      (by simp [mkFD])
    obtain ⟨_, _, e3, e4, e5⟩ := h
    refine ⟨?_, ?_, ?_⟩
    · rw [e3]; simp [mkFD]; omega
    · rw [e4]; simp [mkFD]; omega
    · rw [e5]; simp [mkFD]; omega
  · intro t r l1 l2 l3
    rw [faultCheck_fst, faultCheck_fst]
  · rw [g4]; simp [clearHistAD]; omega
  · rw [g5]; simp [clearHistAD]; omega
  · rw [g6]; simp [clearHistAD]; omega
  · rw [g4]; simp [clearHistAD]
  · intro js
    have h := runAD_closed js c (clearHistAD a) Sinv hσ2 (by simp [clearHistAD])
      (by simp [clearHistAD]) (by simp [clearHistAD])
    obtain ⟨_, _, _, e4, e5, e6⟩ := h
    refine ⟨?_, ?_, ?_⟩
    · rw [e4]; simp [clearHistAD]; omega
    · rw [e5]; simp [clearHistAD]; omega
    · rw [e6]; simp [clearHistAD]; omega
  · intro t u y v l1 l2 l3
    simp only [attackCheck, attackUpdateEstimator_eq]
    rcases hσ3 : inv2 t.Sigma_r_u with _ | S2
    · simp [hσ3]
    · simp only [hσ3]
      split <;> split <;> rfl

/-- Witness for C6: 1001 checks of either detector leave exactly 1000
stored residuals. -/
theorem detector_history_fifo_witness :
    (runFD (mkFD (1/100) (663/100)) (List.replicate 1001 0)).residuals.length = 1000 ∧
    (runAD { x_hat := (0, 0), L := (0, 0), F := ((0, 0), (0, 0)), reference := 0 }
      (clearHistAD
        { x_u_hat := (0, 0), L_u := ((1/2, 0), (0, 1/2)),
          A_est := ((0, 0), (0, 0)), B_est := (0, 0), C_est := ((0, 0), (0, 0)),
          Sigma_r_u := ((1/100, 0), (0, 1/100)), threshold := 921/100,
          residuals := [], test_statistics := [], detections := [] })
      (List.replicate 1001 ((0, 0), 0, 0))).residuals.length = 1000 := by
  have h := detector_history_fifo (1/100) (663/100) (List.replicate 1001 0)
    { x_hat := (0, 0), L := (0, 0), F := ((0, 0), (0, 0)), reference := 0 }
    { x_u_hat := (0, 0), L_u := ((1/2, 0), (0, 1/2)),
      A_est := ((0, 0), (0, 0)), B_est := (0, 0), C_est := ((0, 0), (0, 0)),
      Sigma_r_u := ((1/100, 0), (0, 1/100)), threshold := 921/100,
      residuals := [], test_statistics := [], detections := [] }
    (List.replicate 1001 ((0, 0), 0, 0)) ((100, 0), (0, 100))
    (by norm_num [inv2]) (by norm_num) (by norm_num)
  exact ⟨h.1, h.2.2.2.2.2.2.1⟩

/-- Claim C7.  After `SystemSimulator.reset()`: plant state, controller
estimate and reference, the attack detector's estimator state, all six
history lists, the tick counter and the simulated time are zero/empty, no
fault or attack remains active, while the observer gain `L`, the regulator
gain `F`, both detection thresholds and both residual covariances keep the
values they had before the reset (nothing is recomputed). -/
theorem simulator_reset_frame (s : SimState) :
    (simReset s).plant.x = (0, 0) ∧
    (simReset s).ctrl.x_hat = (0, 0) ∧
    (simReset s).ctrl.reference = 0 ∧
    (simReset s).ad.x_u_hat = (0, 0) ∧
    (simReset s).fd.residuals = [] ∧
    (simReset s).fd.test_statistics = [] ∧
    (simReset s).fd.detections = [] ∧
    (simReset s).ad.residuals = [] ∧
    (simReset s).ad.test_statistics = [] ∧
    (simReset s).ad.detections = [] ∧
    (simReset s).time = 0 ∧
    (simReset s).step_count = 0 ∧
    (simReset s).plant.fault_active = false ∧
    (simReset s).plant.fault_type = none ∧
    (simReset s).net.attack_active = false ∧
    (simReset s).net.attack_type = none ∧
    (simReset s).ctrl.L = s.ctrl.L ∧
    (simReset s).ctrl.F = s.ctrl.F ∧
    (simReset s).fd.threshold = s.fd.threshold ∧
    (simReset s).fd.Sigma_r = s.fd.Sigma_r ∧
    (simReset s).ad.threshold = s.ad.threshold ∧
    (simReset s).ad.Sigma_r_u = s.ad.Sigma_r_u :=
  ⟨rfl, rfl, rfl, rfl, rfl, rfl, rfl, rfl, rfl, rfl, rfl, rfl, rfl, rfl, rfl,
   rfl, rfl, rfl, rfl, rfl, rfl, rfl⟩

/-- Claim C8.  When the tick's core computation raises anywhere
(`core = none`), `SystemSimulator.step` returns the safe-default record
instead of propagating, and that record carries the zero state vector, the
zero control vector and the anomaly label `Normal`. -/
theorem step_exception_safe_default (t : ℚ) :
    simStepTotal none t = safeDefaultRecord t ∧
    (safeDefaultRecord t).state = (0, 0) ∧
    (safeDefaultRecord t).control = (0, 0) ∧
    (safeDefaultRecord t).anomaly_type = "Normal" :=
  ⟨rfl, rfl, rfl, rfl⟩

/-- Claim C9.  `AttackDetector.check` (and so its result and post-state) is
the same for any two values of the Controller's private estimate `x̂`: the
computation reads only the transmitted `y`, `u`, the auxiliary `v` and fixed
design data.  (The Controller's residual is not even part of its persistent
state — it is an ephemeral value returned by `update_observer` — so nothing
of the Controller's per-tick private information can reach the detector.) -/
theorem attack_check_ctrl_private_independent (c : CtrlState) (x1 x2 : Vec2)
    (s : ADState) (u : Vec2) (y v : ℚ) :
    attackCheck { c with x_hat := x1 } s u y v =
      attackCheck { c with x_hat := x2 } s u y v := rfl

/-- Claim C10.  The anomaly classifier is a pure total function of the two
detector booleans (its Lean embedding is literally a function of the two
booleans, so it has no internal state), mapping the four input pairs to
the spec's `Normal`, `SystemFault`, `KernelAttack` and `FaultAndAttack`
labels, spelled as in the source. -/
theorem classify_anomaly_table :
    classifyAnomaly false false = "Normal" ∧
    classifyAnomaly true false = "System Fault" ∧
    classifyAnomaly false true = "Kernel Attack" ∧
    classifyAnomaly true true = "Fault and Attack" :=
  ⟨rfl, rfl, rfl, rfl⟩
